import Mathlib

/-!
Shallow embedding of the pyfatsecret client library (`fatsecret.py`) and
proofs of the specification claims about it.

The embedding models:
* decoded JSON values (`Json`), with objects as ordered association lists
  (Python dicts preserve insertion order and have unique keys);
* the response interpreter `Fatsecret.valid_response`, including the typed
  API-error hierarchy and untyped Python lookup failures (`KeyError`,
  `TypeError`);
* the session constructor and OAuth handshake methods as pure state
  transformers on a `FatsecretState` record, with the network's answers
  supplied as arguments;
* `unix_time` over datetimes represented as microseconds since the epoch
  (Python `timedelta` normalises so that `.days` is floor division);
* representative endpoint methods (`food_add_favorite`, `food_entries_get`,
  `exercise_entry_edit`) as functions from arguments to
  `Option (request parameter list)` where `none` means the method returns
  `None` without issuing a network request and `some ps` means exactly one
  request is issued with parameter mapping `ps` (an ordered association
  list mirroring Python dict insertion order).
-/

/-- Decoded JSON values. Objects are ordered association lists of fields. -/
inductive Json where
  | null
  | bool (b : Bool)
  | num (n : Int)
  | str (s : String)
  | arr (elems : List Json)
  | obj (fields : List (String × Json))

/-- Typed API errors raised by `valid_response` (the four exception classes
at the bottom of `fatsecret.py`, each carrying a code and a message). -/
inductive ApiError where
  | generalError (code : Int) (message : Json)
  | authenticationError (code : Int) (message : Json)
  | parameterError (code : Int) (message : Json)
  | applicationError (code : Int) (message : Json)

/-- Exceptions that can escape `valid_response`: an untyped Python
`KeyError` (missing dict key), a `TypeError` (subscripting a non-dict or
comparing an incomparable code), or one of the typed API errors. -/
inductive PyExn where
  | keyError
  | typeError
  | apiError (e : ApiError)

/-- Values returned by `valid_response` on success: the literal `True`, a
nested JSON value, or the `(auth_token, auth_secret)` tuple from a profile
envelope. -/
inductive RetVal where
  | boolTrue
  | val (j : Json)
  | tokenPair (auth_token auth_secret : Json)

/-- First-match lookup in an association list: Python `d[k]` on a dict
(dict keys are unique, so first match is the only match). -/
def assocLookup : List (String × Json) → String → Option Json
  | [], _ => none
  | (k', v) :: rest, k => if k' = k then some v else assocLookup rest k

/-- Python `k in d` membership test on a dict's keys. -/
def containsKey : List (String × Json) → String → Bool
  | [], _ => false
  | (k', _) :: rest, k => if k' = k then true else containsKey rest k

/-- Python subscript `j[k]` with a string key: on a dict it is a key lookup
raising `KeyError` when absent; on any non-dict JSON value it raises
`TypeError`. -/
def getItem (j : Json) (k : String) : Except PyExn Json :=
  match j with
  | .obj fields =>
    match assocLookup fields k with
    | some v => .ok v
    | none => .error .keyError
  | _ => .error .typeError

/-- The error-code dispatch of `valid_response` (lines 130-143 of
`fatsecret.py`), in source order: `code == 2` first, then the general-error
list, then the three interval bands; codes matching no band yield `none`
(the `if`/`elif` chain falls through without raising). -/
def errorDispatch (code : Int) (message : Json) : Option ApiError :=
  if code = 2 then
    some (.authenticationError 2 (.str "This api call requires an authenticated session"))
  else if code ∈ ([1, 10, 11, 12, 20, 21] : List Int) then
    some (.generalError code message)
  else if 3 ≤ code ∧ code ≤ 9 then
    some (.authenticationError code message)
  else if 101 ≤ code ∧ code ≤ 108 then
    some (.parameterError code message)
  else if 201 ≤ code ∧ code ≤ 207 then
    some (.applicationError code message)
  else none

/-- One level of unwrapping: `response.json()[key][sub]`, as in the
`foods`/`recipes`/... branches of `valid_response`. -/
def unwrapField (obj : Json) (key sub : String) : Except PyExn (Option RetVal) :=
  match getItem obj key with
  | .error e => .error e
  | .ok v =>
    match getItem v sub with
    | .error e => .error e
    | .ok inner => .ok (some (.val inner))

/-- The body of one iteration of the key loop in `valid_response`.
`Except.ok none` means the iteration neither returned nor raised (the loop
continues with the next key); `Except.ok (some r)` means the method
returned `r`; `Except.error e` means an exception was raised.

In the `error` branch a boolean code is dispatched as its integer value
(Python `bool` is a subclass of `int`, so `True == 1` in the comparisons),
and any other non-integer code raises `TypeError` at the chained
comparisons. -/
def handleKey (obj : Json) (key : String) : Except PyExn (Option RetVal) :=
  if key = "error" then
    match getItem obj key with
    | .error e => .error e
    | .ok errObj =>
      match getItem errObj "code" with
      | .error e => .error e
      | .ok codeJson =>
        match getItem errObj "message" with
        | .error e => .error e
        | .ok message =>
          match codeJson with
          | .num code =>
            match errorDispatch code message with
            | some e => .error (.apiError e)
            | none => .ok none
          | .bool b =>
            match errorDispatch (if b then 1 else 0) message with
            | some e => .error (.apiError e)
            | none => .ok none
          | _ => .error .typeError
  else if key = "success" then .ok (some .boolTrue)
  else if key = "foods" then unwrapField obj key "food"
  else if key = "recipes" then unwrapField obj key "recipe"
  else if key = "saved_meals" then unwrapField obj key "saved_meal"
  else if key = "saved_meal_items" then unwrapField obj key "saved_meal_item"
  else if key = "exercise_types" then unwrapField obj key "exercise"
  else if key = "food_entries" then unwrapField obj key "food_entry"
  else if key = "month" then unwrapField obj key "day"
  else if key = "profile" then
    match getItem obj key with
    | .error e => .error e
    | .ok p =>
      match p with
      | .obj fields =>
        if containsKey fields "auth_token" then
          match assocLookup fields "auth_token", assocLookup fields "auth_secret" with
          | some t, some s => .ok (some (.tokenPair t s))
          | some _, none => .error .keyError
          | none, _ => .error .keyError
        else .ok (some (.val p))
      | _ => .error .typeError
  else if key = "food" ∨ key = "recipe" ∨ key = "recipe_types" ∨ key = "saved_meal_id" ∨
      key = "saved_meal_item_id" ∨ key = "food_entry_id" then
    match getItem obj key with
    | .error e => .error e
    | .ok v => .ok (some (.val v))
  else .ok none

/-- The `for key in response.json():` loop of `valid_response`: process the
keys in iteration (insertion) order; falling off the end of the loop
returns Python `None`. -/
def validLoop (obj : Json) : List String → Except PyExn (Option RetVal)
  | [] => .ok none
  | k :: ks =>
    match handleKey obj k with
    | .error e => .error e
    | .ok (some r) => .ok (some r)
    | .ok none => validLoop obj ks

namespace Fatsecret

/-- `Fatsecret.valid_response` (fatsecret.py lines 115-177) on a decoded
JSON object given as its ordered field list. An empty dict is falsy, so the
whole body is skipped and `None` is returned. -/
def valid_response (fields : List (String × Json)) : Except PyExn (Option RetVal) :=
  if fields.isEmpty then .ok none
  else validLoop (Json.obj fields) (fields.map Prod.fst)

end Fatsecret

/-- A Python `datetime.datetime`, represented by its (signed) offset from
`datetime.datetime.utcfromtimestamp(0)` in microseconds, the smallest unit
a `datetime`/`timedelta` stores. -/
structure PyDateTime where
  microsSinceEpoch : Int
deriving DecidableEq, Repr

/-- Microseconds in one day. -/
def microsPerDay : Int := 86400000000

/-- The `.days` field of a Python `timedelta` holding `deltaMicros`
microseconds: `timedelta` normalises to `0 <= seconds < 86400` and
`0 <= microseconds < 10^6` with `days` absorbing the sign, so `.days` is
floor division of the total by one day. -/
def timedeltaDays (deltaMicros : Int) : Int :=
  Int.fdiv deltaMicros microsPerDay

namespace Fatsecret

/-- `Fatsecret.unix_time` (fatsecret.py lines 108-113):
`epoch = utcfromtimestamp(0); delta = dt - epoch; return delta.days`. -/
def unix_time (dt : PyDateTime) : Int :=
  timedeltaDays (dt.microsSinceEpoch - 0)

end Fatsecret

/-- A scalar request-parameter value (Python str or int inserted into the
`params` dict). -/
inductive PVal where
  | s (v : String)
  | i (v : Int)
deriving DecidableEq, Repr

/-- Python truthiness of an optional string argument: `None` and the empty
string are falsy. -/
def strTruthy : Option String → Bool
  | none => false
  | some s => !(s == "")

/-- Python truthiness of an optional numeric argument: `None` and `0` are
falsy. -/
def intTruthy : Option Int → Bool
  | none => false
  | some n => !(n == 0)

/-- The mutable token state of a `Fatsecret` instance (the fields assigned
in `__init__`, `get_authorize_url` and `authenticate`; the `oauth` service
object and `session` carry no further token state of their own). -/
structure FatsecretState where
  consumer_key : String
  consumer_secret : String
  request_token : Option String
  request_token_secret : Option String
  access_token : Option String
  access_token_secret : Option String
deriving DecidableEq, Repr

namespace Fatsecret

/-- `Fatsecret.__init__` (fatsecret.py lines 26-64): request tokens start
as `None`; if a `session_token` pair is supplied both access-token fields
adopt its components (and an authenticated session is opened), otherwise
both stay `None` (unauthorized session). No network call occurs. -/
def init (consumer_key consumer_secret : String)
    (session_token : Option (String × String)) : FatsecretState :=
  match session_token with
  | some tok =>
    { consumer_key := consumer_key, consumer_secret := consumer_secret,
      request_token := none, request_token_secret := none,
      access_token := some tok.1, access_token_secret := some tok.2 }
  | none =>
    { consumer_key := consumer_key, consumer_secret := consumer_secret,
      request_token := none, request_token_secret := none,
      access_token := none, access_token_secret := none }

/-- `Fatsecret.get_authorize_url` (fatsecret.py lines 71-83) as a state
transformer: the provider's answer to `oauth.get_request_token` is passed
in as the pair `(request_token, request_token_secret)`; both request-token
fields are assigned and the access-token fields are untouched. -/
def get_authorize_url (st : FatsecretState)
    (request_token request_token_secret : String) : FatsecretState :=
  { st with request_token := some request_token,
            request_token_secret := some request_token_secret }

/-- `Fatsecret.authenticate` (fatsecret.py lines 85-102) as a state
transformer: the provider's answer to `oauth.get_access_token` is passed in
as the pair `session_token`; both access-token fields adopt its components,
the session is replaced, and the pair is returned to the caller. -/
def authenticate (st : FatsecretState) (session_token : String × String) :
    FatsecretState × (String × String) :=
  ({ st with access_token := some session_token.1,
             access_token_secret := some session_token.2 },
   session_token)

end Fatsecret

/-- States of a `Fatsecret` object reachable through construction and the
two authorization methods (each completed call with whatever pair the
provider returned); `close()` touches no token field. -/
inductive ReachableState : FatsecretState → Prop where
  | constructed (ck cs : String) (tok : Option (String × String)) :
      ReachableState (Fatsecret.init ck cs tok)
  | authorized (st : FatsecretState) (rt rts : String) (h : ReachableState st) :
      ReachableState (Fatsecret.get_authorize_url st rt rts)
  | authenticated (st : FatsecretState) (tok : String × String) (h : ReachableState st) :
      ReachableState (Fatsecret.authenticate st tok).1

namespace Fatsecret

/-- `Fatsecret.food_add_favorite` (fatsecret.py lines 179-194), modelled as
the parameter mapping of the single outgoing request. The two optional
keys are added only when `serving_id and number_of_units` is truthy.
(`number_of_units` is numeric in the source; an `Int` stands in for it,
with Python truthiness `!= 0`.) -/
def food_add_favorite (food_id : String) (serving_id : Option String)
    (number_of_units : Option Int) : List (String × PVal) :=
  let params := [("method", PVal.s "food.add_favorite"), ("format", PVal.s "json"),
                 ("food_id", PVal.s food_id)]
  if strTruthy serving_id && intTruthy number_of_units then
    params ++ [("serving_id", PVal.s (serving_id.getD "")),
               ("number_of_units", PVal.i (number_of_units.getD 0))]
  else params

/-- `Fatsecret.food_entries_get` (fatsecret.py lines 588-610). `none`
models the early `return` (no request, `None` result); `some ps` models
exactly one request issued with parameters `ps`. A `datetime` argument is
always truthy in Python, so `date`'s truthiness is `isSome`. -/
def food_entries_get (food_entry_id : Option String) (date : Option PyDateTime) :
    Option (List (String × PVal)) :=
  let params := [("method", PVal.s "food_entries.get"), ("format", PVal.s "json")]
  if strTruthy food_entry_id then
    some (params ++ [("food_entry_id", PVal.s (food_entry_id.getD ""))])
  else
    match date with
    | some d => some (params ++ [("date", PVal.i (unix_time d))])
    | none => none

/-- `Fatsecret.exercise_entry_edit` (fatsecret.py lines 757-798). `none`
models the early `return` branches (no request, `None` result, no
exception); `some ps` models exactly one request with parameters `ps`.
When `shift_to_id == 0` the source takes `shift_to_name` if truthy, else
`kcals` if truthy, else returns; when `shift_from_id == 0` it takes
`shift_from_name` if truthy, else returns. -/
def exercise_entry_edit (shift_to_id shift_from_id minutes : Int)
    (date : Option PyDateTime) (shift_to_name shift_from_name : Option String)
    (kcals : Option Int) : Option (List (String × PVal)) :=
  let params0 := [("method", PVal.s "exercise_entry.edit"), ("format", PVal.s "json"),
                  ("shift_to_id", PVal.i shift_to_id),
                  ("shift_from_id", PVal.i shift_from_id),
                  ("minutes", PVal.i minutes)]
  let params1 := match date with
    | some d => params0 ++ [("date", PVal.i (unix_time d))]
    | none => params0
  let afterTo : Option (List (String × PVal)) :=
    if shift_to_id = 0 then
      if strTruthy shift_to_name then
        some (params1 ++ [("shift_to_name", PVal.s (shift_to_name.getD ""))])
      else if intTruthy kcals then
        some (params1 ++ [("kcals", PVal.i (kcals.getD 0))])
      else none
    else some params1
  match afterTo with
  | none => none
  | some params2 =>
    if shift_from_id = 0 then
      if strTruthy shift_from_name then
        some (params2 ++ [("shift_from_name", PVal.s (shift_from_name.getD ""))])
      else none
    else some params2

end Fatsecret

/-- The single-key `error` envelope `{"error": {"code": c, "message": m}}`
as a top-level field list. -/
def errEnv (c : Int) (m : String) : List (String × Json) :=
  [("error", Json.obj [("code", Json.num c), ("message", Json.str m)])]

/-- The message carried by a typed API error. -/
def errMessage : ApiError → Json
  | .generalError _ m => m
  | .authenticationError _ m => m
  | .parameterError _ m => m
  | .applicationError _ m => m

/-- The message of the typed API error raised by an interpreter outcome,
`none` when the outcome is not a typed API error. -/
def raisedMessage : Except PyExn (Option RetVal) → Option Json
  | .error (.apiError e) => some (errMessage e)
  | _ => none

/-- The top-level keys `valid_response` dispatches on (a key outside this
list makes the loop iteration a no-op). -/
def recognizedKeys : List String :=
  ["error", "success", "foods", "recipes", "saved_meals", "saved_meal_items",
   "exercise_types", "food_entries", "month", "profile", "food", "recipe",
   "recipe_types", "saved_meal_id", "saved_meal_item_id", "food_entry_id"]

theorem valid_response_errEnv_eval (c : Int) (m : String) :
    Fatsecret.valid_response (errEnv c m) =
      match errorDispatch c (Json.str m) with
      | some e => .error (.apiError e)
      | none => .ok none := by
  cases h : errorDispatch c (Json.str m) with
  | none =>
    simp [Fatsecret.valid_response, errEnv, validLoop, handleKey, getItem, assocLookup, h]
  | some e =>
    simp [Fatsecret.valid_response, errEnv, validLoop, handleKey, getItem, assocLookup, h]

theorem errorDispatch_general (c : Int) (m : Json)
    (h : c ∈ ([1, 10, 11, 12, 20, 21] : List Int)) :
    errorDispatch c m = some (.generalError c m) := by
  have h2 : ¬ c = 2 := by simp at h; omega
  unfold errorDispatch
  rw [if_neg h2, if_pos h]

theorem errorDispatch_two (m : Json) :
    errorDispatch 2 m =
      some (.authenticationError 2
        (.str "This api call requires an authenticated session")) := rfl

theorem errorDispatch_auth (c : Int) (m : Json) (h3 : 3 ≤ c) (h9 : c ≤ 9) :
    errorDispatch c m = some (.authenticationError c m) := by
  have h2 : ¬ c = 2 := by omega
  have hg : ¬ c ∈ ([1, 10, 11, 12, 20, 21] : List Int) := by simp; omega
  unfold errorDispatch
  rw [if_neg h2, if_neg hg, if_pos ⟨h3, h9⟩]

theorem errorDispatch_param (c : Int) (m : Json) (h1 : 101 ≤ c) (h2 : c ≤ 108) :
    errorDispatch c m = some (.parameterError c m) := by
  have hc2 : ¬ c = 2 := by omega
  have hg : ¬ c ∈ ([1, 10, 11, 12, 20, 21] : List Int) := by simp; omega
  have ha : ¬ (3 ≤ c ∧ c ≤ 9) := by omega
  unfold errorDispatch
  rw [if_neg hc2, if_neg hg, if_neg ha, if_pos ⟨h1, h2⟩]

theorem errorDispatch_app (c : Int) (m : Json) (h1 : 201 ≤ c) (h2 : c ≤ 207) :
    errorDispatch c m = some (.applicationError c m) := by
  have hc2 : ¬ c = 2 := by omega
  have hg : ¬ c ∈ ([1, 10, 11, 12, 20, 21] : List Int) := by simp; omega
  have ha : ¬ (3 ≤ c ∧ c ≤ 9) := by omega
  have hp : ¬ (101 ≤ c ∧ c ≤ 108) := by omega
  unfold errorDispatch
  rw [if_neg hc2, if_neg hg, if_neg ha, if_neg hp, if_pos ⟨h1, h2⟩]

theorem errorDispatch_outside (c : Int) (m : Json)
    (hc2 : ¬ c = 2) (hg : ¬ c ∈ ([1, 10, 11, 12, 20, 21] : List Int))
    (ha : ¬ (3 ≤ c ∧ c ≤ 9)) (hp : ¬ (101 ≤ c ∧ c ≤ 108))
    (hap : ¬ (201 ≤ c ∧ c ≤ 207)) :
    errorDispatch c m = none := by
  unfold errorDispatch
  rw [if_neg hc2, if_neg hg, if_neg ha, if_neg hp, if_neg hap]

theorem handleKey_unrecognized (obj : Json) (k : String)
    (h : k ∉ recognizedKeys) :
    handleKey obj k = .ok none := by
  simp [recognizedKeys] at h
  simp [handleKey, h]

theorem validLoop_skip (obj : Json) (pre rest : List String)
    (h : ∀ k ∈ pre, k ∉ recognizedKeys) :
    validLoop obj (pre ++ rest) = validLoop obj rest := by
  induction pre with
  | nil => rfl
  | cons hd tl ih =>
    have hh := handleKey_unrecognized obj hd (h hd (List.mem_cons_self hd tl))
    simp only [List.cons_append, validLoop, hh]
    exact ih (fun k hk => h k (List.mem_cons_of_mem hd hk))

theorem assocLookup_append_of_not_mem (pre : List (String × Json)) (k : String)
    (v : Json) (post : List (String × Json)) (h : ∀ p ∈ pre, p.1 ≠ k) :
    assocLookup (pre ++ (k, v) :: post) k = some v := by
  induction pre with
  | nil => simp [assocLookup]
  | cons hd tl ih =>
    have hne : hd.1 ≠ k := h hd (List.mem_cons_self hd tl)
    simp only [List.cons_append, assocLookup]
    rw [if_neg hne]
    exact ih (fun p hp => h p (List.mem_cons_of_mem hd hp))

theorem containsKey_eq_isSome (fields : List (String × Json)) (k : String) :
    containsKey fields k = (assocLookup fields k).isSome := by
  induction fields with
  | nil => rfl
  | cons hd tl ih =>
    simp only [containsKey, assocLookup]
    by_cases hk : hd.1 = k
    · obtain ⟨k', v⟩ := hd
      simp only at hk
      simp [hk]
    · obtain ⟨k', v⟩ := hd
      simp only at hk
      simp [hk, ih]

/-- C1: for an envelope `{"error": {"code": c, "message": m}}`,
`valid_response` raises `GeneralError` when `c` is in {1,10,11,12,20,21},
`AuthenticationError` when `c = 2` or `3 ≤ c ≤ 9`, `ParameterError` when
`101 ≤ c ≤ 108`, and `ApplicationError` when `201 ≤ c ≤ 207`, with the
raised error carrying that code. -/
theorem valid_response_error_code_bands (c : Int) (m : String) :
    (c ∈ ([1, 10, 11, 12, 20, 21] : List Int) →
      Fatsecret.valid_response (errEnv c m) =
        .error (.apiError (.generalError c (.str m)))) ∧
    (c = 2 →
      Fatsecret.valid_response (errEnv c m) =
        .error (.apiError (.authenticationError 2
          (.str "This api call requires an authenticated session")))) ∧
    (3 ≤ c → c ≤ 9 →
      Fatsecret.valid_response (errEnv c m) =
        .error (.apiError (.authenticationError c (.str m)))) ∧
    (101 ≤ c → c ≤ 108 →
      Fatsecret.valid_response (errEnv c m) =
        .error (.apiError (.parameterError c (.str m)))) ∧
    (201 ≤ c → c ≤ 207 →
      Fatsecret.valid_response (errEnv c m) =
        .error (.apiError (.applicationError c (.str m)))) := by
  refine ⟨?_, ?_, ?_, ?_, ?_⟩
  · intro h
    rw [valid_response_errEnv_eval, errorDispatch_general c (.str m) h]
  · intro h
    subst h
    rw [valid_response_errEnv_eval, errorDispatch_two (.str m)]
  · intro h3 h9
    rw [valid_response_errEnv_eval, errorDispatch_auth c (.str m) h3 h9]
  · intro h1 h2
    rw [valid_response_errEnv_eval, errorDispatch_param c (.str m) h1 h2]
  · intro h1 h2
    rw [valid_response_errEnv_eval, errorDispatch_app c (.str m) h1 h2]

theorem valid_response_error_code_bands_witness :
    Fatsecret.valid_response (errEnv 10 "msg") =
      .error (.apiError (.generalError 10 (.str "msg"))) ∧
    Fatsecret.valid_response (errEnv 2 "msg") =
      .error (.apiError (.authenticationError 2
        (.str "This api call requires an authenticated session"))) ∧
    Fatsecret.valid_response (errEnv 5 "msg") =
      .error (.apiError (.authenticationError 5 (.str "msg"))) ∧
    Fatsecret.valid_response (errEnv 101 "msg") =
      .error (.apiError (.parameterError 101 (.str "msg"))) ∧
    Fatsecret.valid_response (errEnv 201 "msg") =
      .error (.apiError (.applicationError 201 (.str "msg"))) :=
  ⟨(valid_response_error_code_bands 10 "msg").1 (by decide),
   (valid_response_error_code_bands 2 "msg").2.1 rfl,
   (valid_response_error_code_bands 5 "msg").2.2.1 (by decide) (by decide),
   (valid_response_error_code_bands 101 "msg").2.2.2.1 (by decide) (by decide),
   (valid_response_error_code_bands 201 "msg").2.2.2.2 (by decide) (by decide)⟩

/-- C10: on an error envelope with code exactly 2, `valid_response` raises
`AuthenticationError` with the fixed message "This api call requires an
authenticated session", ignoring the envelope's own message; for the
other recognized bands the envelope's message is the one carried by the
raised error. -/
theorem valid_response_code2_fixed_message (c : Int) (m : String) :
    (Fatsecret.valid_response (errEnv 2 m) =
      .error (.apiError (.authenticationError 2
        (.str "This api call requires an authenticated session")))) ∧
    (m ≠ "This api call requires an authenticated session" →
      raisedMessage (Fatsecret.valid_response (errEnv 2 m)) ≠ some (.str m)) ∧
    ((c ∈ ([1, 10, 11, 12, 20, 21] : List Int) ∨ (3 ≤ c ∧ c ≤ 9) ∨
        (101 ≤ c ∧ c ≤ 108) ∨ (201 ≤ c ∧ c ≤ 207)) →
      raisedMessage (Fatsecret.valid_response (errEnv c m)) = some (.str m)) := by
  refine ⟨?_, ?_, ?_⟩
  · rw [valid_response_errEnv_eval, errorDispatch_two (.str m)]
  · intro hm
    rw [valid_response_errEnv_eval, errorDispatch_two (.str m)]
    simp [raisedMessage, errMessage]
    intro hEq
    exact hm hEq.symm
  · intro hband
    rcases hband with h | ⟨h3, h9⟩ | ⟨h1, h2⟩ | ⟨h1, h2⟩
    · rw [valid_response_errEnv_eval, errorDispatch_general c (.str m) h]
      rfl
    · rw [valid_response_errEnv_eval, errorDispatch_auth c (.str m) h3 h9]
      rfl
    · rw [valid_response_errEnv_eval, errorDispatch_param c (.str m) h1 h2]
      rfl
    · rw [valid_response_errEnv_eval, errorDispatch_app c (.str m) h1 h2]
      rfl

theorem valid_response_code2_fixed_message_witness :
    (Fatsecret.valid_response (errEnv 2 "wire message") =
      .error (.apiError (.authenticationError 2
        (.str "This api call requires an authenticated session")))) ∧
    (raisedMessage (Fatsecret.valid_response (errEnv 2 "wire message")) ≠
      some (.str "wire message")) ∧
    (raisedMessage (Fatsecret.valid_response (errEnv 105 "wire message")) =
      some (.str "wire message")) :=
  ⟨(valid_response_code2_fixed_message 105 "wire message").1,
   (valid_response_code2_fixed_message 105 "wire message").2.1 (by decide),
   (valid_response_code2_fixed_message 105 "wire message").2.2
     (by right; right; left; exact ⟨by decide, by decide⟩)⟩

/-- C4 counterexample: an `error` envelope whose nested object lacks the
`code` field does not fall through silently — the unconditional dict
lookup `response.json()[key]['code']` raises a `KeyError`. -/
theorem valid_response_malformed_raises_keyError :
    Fatsecret.valid_response [("error", Json.obj [("message", Json.str "m")])] =
      .error .keyError := rfl

/-- C4 (amended): a single-key `error` envelope whose integer code lies
outside all five recognized bands and which carries both `code` and
`message` falls through silently (no exception, absent result); but an
`error` envelope lacking the `code` field, or lacking the `message` field,
raises an untyped `KeyError` rather than returning silently. -/
theorem valid_response_unrecognized_code_fallthrough (c : Int) (m : String)
    (hc2 : ¬ c = 2) (hg : ¬ c ∈ ([1, 10, 11, 12, 20, 21] : List Int))
    (ha : ¬ (3 ≤ c ∧ c ≤ 9)) (hp : ¬ (101 ≤ c ∧ c ≤ 108))
    (hap : ¬ (201 ≤ c ∧ c ≤ 207)) :
    Fatsecret.valid_response (errEnv c m) = .ok none ∧
    Fatsecret.valid_response [("error", Json.obj [("message", Json.str m)])] =
      .error .keyError ∧
    Fatsecret.valid_response [("error", Json.obj [("code", Json.num c)])] =
      .error .keyError := by
  refine ⟨?_, rfl, ?_⟩
  · rw [valid_response_errEnv_eval, errorDispatch_outside c (.str m) hc2 hg ha hp hap]
  · simp [Fatsecret.valid_response, validLoop, handleKey, getItem, assocLookup]

theorem valid_response_unrecognized_code_fallthrough_witness :
    Fatsecret.valid_response (errEnv 50 "m") = .ok none ∧
    Fatsecret.valid_response [("error", Json.obj [("message", Json.str "m")])] =
      .error .keyError ∧
    Fatsecret.valid_response [("error", Json.obj [("code", Json.num 50)])] =
      .error .keyError :=
  valid_response_unrecognized_code_fallthrough 50 "m"
    (by decide) (by decide) (by decide) (by decide) (by decide)

/-- C2 counterexample: when a recognized success key precedes the `error`
key in the envelope's top-level key order, `valid_response` returns the
success interpretation and never reaches the `error` entry — it does not
raise the typed error the claim demands. -/
theorem valid_response_success_before_error :
    Fatsecret.valid_response
      [("success", Json.num 1),
       ("error", Json.obj [("code", Json.num 1), ("message", Json.str "oops")])] =
      .ok (some .boolTrue) := rfl

/-- C2 (amended): dispatch is first-match over the top-level keys in
iteration order. When every key preceding `error` is unrecognized (matches
no branch of the interpreter), the typed error classified from the nested
code is raised, whatever follows `error`; but a recognized key placed
before `error` is interpreted instead. -/
theorem valid_response_error_first_recognized (pre post : List (String × Json))
    (c : Int) (m : String) (e : ApiError)
    (hpre : ∀ p ∈ pre, p.1 ∉ recognizedKeys)
    (hd : errorDispatch c (Json.str m) = some e) :
    Fatsecret.valid_response
      (pre ++ ("error", Json.obj [("code", Json.num c), ("message", Json.str m)]) :: post) =
      .error (.apiError e) := by
  have hkeys : ∀ k ∈ pre.map Prod.fst, k ∉ recognizedKeys := by
    intro k hk
    obtain ⟨p, hp, rfl⟩ := List.mem_map.mp hk
    exact hpre p hp
  have hne : ∀ p ∈ pre, p.1 ≠ "error" := by
    intro p hp he
    exact hpre p hp (by rw [he]; simp [recognizedKeys])
  have hlook := assocLookup_append_of_not_mem pre "error"
    (Json.obj [("code", Json.num c), ("message", Json.str m)]) post hne
  have hempty :
      (pre ++ ("error", Json.obj [("code", Json.num c), ("message", Json.str m)]) :: post).isEmpty
        = false := by
    cases pre <;> rfl
  unfold Fatsecret.valid_response
  rw [hempty]
  simp only [Bool.false_eq_true, if_false, List.map_append, List.map_cons]
  rw [validLoop_skip _ _ _ hkeys]
  simp only [validLoop, handleKey, if_pos rfl, getItem, hlook, assocLookup]
  simp [hd]

theorem valid_response_error_first_recognized_witness :
    Fatsecret.valid_response
      [("unknown_key", Json.num 0),
       ("error", Json.obj [("code", Json.num 1), ("message", Json.str "m")])] =
      .error (.apiError (.generalError 1 (.str "m"))) :=
  valid_response_error_first_recognized [("unknown_key", Json.num 0)] [] 1 "m"
    (.generalError 1 (.str "m")) (by decide) rfl

/-- C9: for a single-key envelope `{"profile": p}`, if the nested object
`p` carries an `auth_token` field (together with the `auth_secret` field
named by the claimed return pair), `valid_response` returns the
`(auth_token, auth_secret)` pair; if `p` has no `auth_token` field, it
returns the nested object `p` unchanged. -/
theorem valid_response_profile (pf : List (String × Json)) :
    (∀ t s, assocLookup pf "auth_token" = some t →
      assocLookup pf "auth_secret" = some s →
      Fatsecret.valid_response [("profile", Json.obj pf)] =
        .ok (some (.tokenPair t s))) ∧
    (assocLookup pf "auth_token" = none →
      Fatsecret.valid_response [("profile", Json.obj pf)] =
        .ok (some (.val (Json.obj pf)))) := by
  constructor
  · intro t s ht hs
    have hck : containsKey pf "auth_token" = true := by
      rw [containsKey_eq_isSome, ht]
      rfl
    simp [Fatsecret.valid_response, validLoop, handleKey, getItem, assocLookup,
      hck, ht, hs]
  · intro ht
    have hck : containsKey pf "auth_token" = false := by
      rw [containsKey_eq_isSome, ht]
      rfl
    simp [Fatsecret.valid_response, validLoop, handleKey, getItem, assocLookup, hck]

theorem valid_response_profile_witness :
    Fatsecret.valid_response
      [("profile", Json.obj [("auth_token", Json.str "T"), ("auth_secret", Json.str "S")])] =
      .ok (some (.tokenPair (Json.str "T") (Json.str "S"))) ∧
    Fatsecret.valid_response [("profile", Json.obj [("other_field", Json.num 1)])] =
      .ok (some (.val (Json.obj [("other_field", Json.num 1)]))) :=
  ⟨(valid_response_profile
      [("auth_token", Json.str "T"), ("auth_secret", Json.str "S")]).1
      (Json.str "T") (Json.str "S") rfl rfl,
   (valid_response_profile [("other_field", Json.num 1)]).2 rfl⟩

/-- C5: in every reachable state of a `Fatsecret` session — after
construction with or without a resumed token pair and after any sequence
of completed `get_authorize_url` / `authenticate` calls — the fields
`access_token` and `access_token_secret` are both absent or both present,
never exactly one of the two. -/
theorem access_token_pair_invariant (st : FatsecretState)
    (h : ReachableState st) :
    st.access_token.isSome = st.access_token_secret.isSome := by
  induction h with
  | constructed ck cs tok =>
    cases tok with
    | none => rfl
    | some p => rfl
  | authorized st rt rts h ih =>
    simpa [Fatsecret.get_authorize_url] using ih
  | authenticated st tok h ih =>
    rfl

theorem access_token_pair_invariant_witness :
    ((Fatsecret.init "key" "secret" (some ("tok", "sec"))).access_token.isSome =
      (Fatsecret.init "key" "secret" (some ("tok", "sec"))).access_token_secret.isSome) ∧
    ((Fatsecret.init "key" "secret" none).access_token.isSome =
      (Fatsecret.init "key" "secret" none).access_token_secret.isSome) ∧
    ((Fatsecret.authenticate (Fatsecret.init "key" "secret" none) ("t", "s")).1.access_token.isSome =
      (Fatsecret.authenticate (Fatsecret.init "key" "secret" none) ("t", "s")).1.access_token_secret.isSome) :=
  ⟨access_token_pair_invariant _
     (ReachableState.constructed "key" "secret" (some ("tok", "sec"))),
   access_token_pair_invariant _ (ReachableState.constructed "key" "secret" none),
   access_token_pair_invariant _
     (ReachableState.authenticated _ ("t", "s")
       (ReachableState.constructed "key" "secret" none))⟩

/-- C8: for a datetime lying exactly `n` full days plus a sub-day
remainder of `r` microseconds (`0 ≤ r <` one day) after the epoch,
`unix_time` returns exactly `n` — the sub-day component is truncated, not
rounded. -/
theorem unix_time_truncates (n r : Int) (h0 : 0 ≤ r) (h1 : r < 86400000000) :
    Fatsecret.unix_time ⟨n * 86400000000 + r⟩ = n := by
  show timedeltaDays (n * 86400000000 + r - 0) = n
  unfold timedeltaDays microsPerDay
  rw [Int.sub_zero, Int.fdiv_eq_ediv _ (by norm_num)]
  omega

theorem unix_time_truncates_witness :
    Fatsecret.unix_time ⟨3 * 86400000000 + 86399999999⟩ = 3 :=
  unix_time_truncates 3 86399999999 (by decide) (by decide)

/-- C6: `food_entries_get` with neither selector supplied (Python-falsy
`food_entry_id` and no `date`) issues no request and returns `None`; with a
supplied `food_entry_id` it issues exactly one request keyed by
`food_entry_id` (no `date` key, whatever `date` is — id takes precedence);
with only a `date` it issues exactly one request keyed by the converted
date. -/
theorem food_entries_get_selector (food_entry_id : Option String)
    (date : Option PyDateTime) :
    (strTruthy food_entry_id = false → date = none →
      Fatsecret.food_entries_get food_entry_id date = none) ∧
    (∀ s, food_entry_id = some s → s ≠ "" →
      Fatsecret.food_entries_get food_entry_id date =
        some [("method", PVal.s "food_entries.get"), ("format", PVal.s "json"),
              ("food_entry_id", PVal.s s)]) ∧
    (strTruthy food_entry_id = false → ∀ d, date = some d →
      Fatsecret.food_entries_get food_entry_id date =
        some [("method", PVal.s "food_entries.get"), ("format", PVal.s "json"),
              ("date", PVal.i (Fatsecret.unix_time d))]) := by
  refine ⟨?_, ?_, ?_⟩
  · intro hid hd
    subst hd
    simp [Fatsecret.food_entries_get, hid]
  · intro s hs hne
    subst hs
    have ht : strTruthy (some s) = true := by simp [strTruthy, hne]
    simp [Fatsecret.food_entries_get, ht]
  · intro hid d hd
    subst hd
    simp [Fatsecret.food_entries_get, hid]

theorem food_entries_get_selector_witness :
    Fatsecret.food_entries_get none none = none ∧
    Fatsecret.food_entries_get (some "42") (some ⟨0⟩) =
      some [("method", PVal.s "food_entries.get"), ("format", PVal.s "json"),
            ("food_entry_id", PVal.s "42")] ∧
    Fatsecret.food_entries_get none (some ⟨0⟩) =
      some [("method", PVal.s "food_entries.get"), ("format", PVal.s "json"),
            ("date", PVal.i 0)] :=
  ⟨(food_entries_get_selector none none).1 rfl rfl,
   (food_entries_get_selector (some "42") (some ⟨0⟩)).2.1 "42" rfl (by decide),
   (food_entries_get_selector none (some ⟨0⟩)).2.2 rfl ⟨0⟩ rfl⟩

/-- C7: in the request built by `food_add_favorite`, the keys `serving_id`
and `number_of_units` each appear exactly when both optional arguments are
supplied (Python-truthy); when only one is supplied the parameter mapping
contains neither key. -/
theorem food_add_favorite_pairing (food_id : String) (serving_id : Option String)
    (number_of_units : Option Int) :
    (("serving_id" ∈
        (Fatsecret.food_add_favorite food_id serving_id number_of_units).map Prod.fst) ↔
      strTruthy serving_id = true ∧ intTruthy number_of_units = true) ∧
    (("number_of_units" ∈
        (Fatsecret.food_add_favorite food_id serving_id number_of_units).map Prod.fst) ↔
      strTruthy serving_id = true ∧ intTruthy number_of_units = true) := by
  unfold Fatsecret.food_add_favorite
  by_cases hs : strTruthy serving_id = true
  · by_cases hu : intTruthy number_of_units = true
    · simp [hs, hu]
    · simp [hs, hu]
  · simp [hs]

/-- C3 counterexample: with `shift_to_id = 0`, `shift_to_name` absent but
`kcals` supplied, `exercise_entry_edit` does not skip — it issues the
request with a `kcals` parameter, contradicting the claim that the call is
always skipped when the custom name is missing. -/
theorem exercise_entry_edit_kcals_counterexample :
    Fatsecret.exercise_entry_edit 0 1 30 none none none (some 500) =
      some [("method", PVal.s "exercise_entry.edit"), ("format", PVal.s "json"),
            ("shift_to_id", PVal.i 0), ("shift_from_id", PVal.i 1),
            ("minutes", PVal.i 30), ("kcals", PVal.i 500)] := rfl

/-- C3 (amended): `exercise_entry_edit` skips the call entirely — no
request, no exception, `None` result — when `shift_to_id` is the sentinel
0 and both `shift_to_name` and `kcals` are absent (Python-falsy), or when
`shift_from_id` is 0 and `shift_from_name` is absent. -/
theorem exercise_entry_edit_skips (shift_to_id shift_from_id minutes : Int)
    (date : Option PyDateTime) (shift_to_name shift_from_name : Option String)
    (kcals : Option Int)
    (h : (shift_to_id = 0 ∧ strTruthy shift_to_name = false ∧ intTruthy kcals = false) ∨
         (shift_from_id = 0 ∧ strTruthy shift_from_name = false)) :
    Fatsecret.exercise_entry_edit shift_to_id shift_from_id minutes date
      shift_to_name shift_from_name kcals = none := by
  unfold Fatsecret.exercise_entry_edit
  rcases h with ⟨h0, hn, hk⟩ | ⟨h0, hn⟩
  · simp [h0, hn, hk]
  · by_cases hto : shift_to_id = 0
    · by_cases htn : strTruthy shift_to_name = true
      · simp [hto, htn, h0, hn]
      · by_cases hkc : intTruthy kcals = true
        · simp [hto, htn, hkc, h0, hn]
        · simp [hto, htn, hkc]
    · simp [hto, h0, hn]

theorem exercise_entry_edit_skips_witness :
    Fatsecret.exercise_entry_edit 0 1 30 none none none none = none ∧
    Fatsecret.exercise_entry_edit 1 0 30 none none none none = none :=
  ⟨exercise_entry_edit_skips 0 1 30 none none none none
     (Or.inl ⟨rfl, rfl, rfl⟩),
   exercise_entry_edit_skips 1 0 30 none none none none
     (Or.inr ⟨rfl, rfl⟩)⟩
